import Mathlib

/-!
Verification of the `api-helper` request layer.

The JavaScript sources are shallowly embedded as pure Lean functions:
  * browser local storage and the wall clock become explicit arguments
    (`Sys.store`, `Env.now`);
  * every network interaction (the axios transport and the refresh
    endpoint) is an oracle supplied by an `Env` value;
  * JavaScript exceptions become `Except` values;
  * observable side effects (logout navigation, notifications, network
    sends) are counters and logs threaded through a `Sys` state.

Sources embedded:
  * `src/utils.js`  (`getLocalStorageToken`, `isTokenExpired`, `logout`)
  * `src/constants.js`
  * `src/classes/Exception.js`
  * `src/classes/UnauthorizedManager.js`
  * the axios instance, its two interceptors, `callApi` and
    `callApiWithNotification`.
-/

/-- JavaScript values as produced by `JSON.parse` (no `undefined`, no
functions).  Used to model the raw content of local storage and opaque
request/response bodies. -/
inductive JSVal
  | null
  | bool (b : Bool)
  | num (n : Int)
  | str (s : String)
  | arr (elems : List JSVal)
  | obj (fields : List (String × JSVal))

/-- JavaScript `typeof` on parsed JSON values.  Note `typeof null`,
`typeof []` and `typeof {}` are all `"object"`. -/
def jsTypeof : JSVal → String
  | .null => "object"
  | .bool _ => "boolean"
  | .num _ => "number"
  | .str _ => "string"
  | .arr _ => "object"
  | .obj _ => "object"

/-- `src/utils.js` `getLocalStorageToken`.  The raw stored string and
`JSON.parse` are modelled by the parse outcome handed in: `.error ()`
means `JSON.parse` (or `getItem`) threw, `.ok v` means parsing produced
the value `v`.  The JS function returns the parsed value when
`typeof parsedToken === "object"` and `null` otherwise; any exception is
swallowed and turned into `null`.  (An absent item gives
`JSON.parse(null) = null`, covered by the `.ok .null` case.) -/
def getLocalStorageToken (parsed : Except Unit JSVal) : JSVal :=
  match parsed with
  | .error _ => .null
  | .ok parsedToken =>
      if jsTypeof parsedToken = "object" then parsedToken else .null

/-- The well-formed persisted token record (§3 TokenRecord).  The typed
pipeline below reads the store at this level of abstraction. -/
structure TokenRecord where
  token : String
  refreshToken : String
  expireAt : Int
deriving DecidableEq

/-- `src/utils.js` `isTokenExpired`: `(tokenObject?.expireAt ?? 0) < Date.now()`.
The pipeline only calls it after a null check, so it takes the record. -/
def isTokenExpired (tokenObject : TokenRecord) (now : Int) : Bool :=
  tokenObject.expireAt < now

/-- `src/constants.js` `DEBUG`. -/
def DEBUG : Bool := false

/-- `src/constants.js` `DEBUG_TOKEN_EXPIRED_AFTER_10_SEC`. -/
def DEBUG_TOKEN_EXPIRED_AFTER_10_SEC : Bool := false

/-- `src/constants.js` `LOGOUT_LOCK_TIME` (milliseconds). -/
def LOGOUT_LOCK_TIME : Int := 1000

/-- `src/constants.js` `PATHS_WHITELIST`. -/
def PATHS_WHITELIST : List String :=
  ["endpoint", "method", "body", "cancelToken", "withoutAuth",
   "disableErrorNotification"]

/-- The error classes of `src/classes/Exception.js` (all subclasses of
`Error`) together with plain `new Error(message)` instances. -/
inductive JSError
  | noAuthToken (msg : String)
  | authTokenExpired (msg : String)
  | beResponse (msg : String)
  | serverNoResponse
  | plainError (msg : String)
deriving DecidableEq

/-- `error.message` of an embedded error object (`ServerNoResponseError`
is constructed with no message in the source). -/
def JSError.message : JSError → String
  | .noAuthToken m => m
  | .authTokenExpired m => m
  | .beResponse m => m
  | .serverNoResponse => ""
  | .plainError m => m

/-- A business payload `{status, code, message, data}` as returned by the
backend inside a 2xx transport response.  `message = ""` models a
missing/falsy `message` (JS `||`). -/
structure Payload where
  status : String
  code : String
  message : String
  data : JSVal

/-- The refresh endpoint's payload: its `data` carries the fresh token
record (§6 remote refresh endpoint contract). -/
structure RefreshPayload where
  status : String
  code : String
  data : TokenRecord
deriving DecidableEq

/-- Modelled from the spec: `isReqSuccess` lives in `responseHelper.js`,
which is not among the provided sources.  Per §6 business success is
indicated by a status/code convention; `Exception.js` documents it as
"status 200 and code CM000000". -/
def isReqSuccess (status code : String) : Bool :=
  status == "200" && code == "CM000000"

/-- JS `a || b` on strings (`""` is falsy). -/
def jsStringOr (a b : String) : String :=
  if a = "" then b else a

/-- The request configuration as it travels through the axios instance:
the output of `_callApi`'s spread plus the transport-internal fields
(`retried`, the attached `Access-Token` header). -/
structure Config where
  url : String
  method : String
  body : Option JSVal
  cancelToken : Option Nat
  withoutAuth : Bool
  disableErrorNotification : Bool
  retried : Bool
  accessTokenHeader : Option String

/-- An axios response object (the fields the source reads). -/
structure AxiosResponse where
  status : Nat
  config : Config
  data : Payload

/-- `src/classes/Exception.js` `RequestError`: the value `callApi`
resolves to on failure.  Absent fields are `none` / `false`. -/
structure RequestError where
  error : Option JSError
  config : Option Config
  response : Option AxiosResponse
  isCancelled : Bool

/-- Outcome of one transport send for the main instance, as axios
presents it: resolution (2xx), cancellation, a rejection carrying a
response, a rejection with a request but no response, or a setup error. -/
inductive TransportOutcome
  | ok2xx (p : Payload)
  | cancelled
  | errResponse (status : Nat) (p : Payload)
  | errNoResponse
  | errSetup (e : JSError)

/-- Outcome of the `axios.post(URL_REFRESH_TOKEN, ...)` call inside the
refresh worker (no cancel token is attached there). -/
inductive RefreshNetOutcome
  | ok2xx (p : RefreshPayload)
  | errResponse (status : Nat)
  | errNoResponse
  | errSetup (e : JSError)

/-- The external world: the clock and the two network oracles.
`transport i` is the outcome of the i-th send through the main instance
(counted by `Sys.transportCalls`). -/
structure Env where
  now : Int
  transport : Nat → TransportOutcome
  refreshOutcome : RefreshNetOutcome

/-- Global mutable state and observable-effect log.

`store` is the `"token"` entry of local storage read at `TokenRecord`
level; `logoutTimeout` is `UnauthorizedManager.#logoutTimeout` as the
instant the timer was armed (the timer has fired once
`LOGOUT_LOCK_TIME` has elapsed).  The counters record side effects:
`logoutCalls` counts entries into `UnauthorizedManager.logout`,
`logoutFires` counts actual `utils.logout` navigations/clears,
`refreshInvocations` counts entries into `refreshingToken`,
`refreshNetCalls` counts refresh-endpoint posts, `transportCalls` and
`sentConfigs` record what actually reached the network. -/
structure Sys where
  store : Option TokenRecord
  logoutTimeout : Option Int
  logoutCalls : Nat
  logoutFires : Nat
  refreshInvocations : Nat
  refreshNetCalls : Nat
  transportCalls : Nat
  sentConfigs : List Config
  failNotifications : Nat
  successNotifications : Nat

/-- Whether the armed logout timer is still pending at instant `now`
(the `setTimeout` callback nulls `#logoutTimeout` after
`LOGOUT_LOCK_TIME` ms). -/
def logoutTimerActive (now : Int) : Option Int → Bool
  | some t => now - t < LOGOUT_LOCK_TIME
  | none => false

namespace UnauthorizedManager

/-- `UnauthorizedManager.logout`: runs the `utils.logout` side effect
(remove the token, navigate to root) only when `#logoutTimeout` is not
armed, re-arming the timer for `LOGOUT_LOCK_TIME`. -/
def logout (now : Int) (s : Sys) : Sys :=
  if logoutTimerActive now s.logoutTimeout then
    { s with logoutCalls := s.logoutCalls + 1 }
  else
    { s with
      logoutCalls := s.logoutCalls + 1
      logoutTimeout := some now
      store := none
      logoutFires := s.logoutFires + 1 }

/-- `UnauthorizedManager.#_refreshingToken`: reads the stored record
(throwing `NoAuthTokenError` when absent — note: before the `try`, so no
logout there), posts to the refresh endpoint with the stored
refreshToken and `Access-Token` header (the post is the `env` oracle),
persists and returns the fresh record on business success, and otherwise
logs out and rethrows the classified error. -/
def _refreshingToken (env : Env) (s : Sys) : Sys × Except JSError TokenRecord :=
  match s.store with
  | none => (s, .error (.noAuthToken "no auth token in local storage"))
  | some _tokenObj =>
      let s1 : Sys := { s with refreshNetCalls := s.refreshNetCalls + 1 }
      match env.refreshOutcome with
      | .ok2xx p =>
          if isReqSuccess p.status p.code then
            let data :=
              if DEBUG_TOKEN_EXPIRED_AFTER_10_SEC then
                { p.data with expireAt := env.now + 10000 }
              else p.data
            ({ s1 with store := some data }, .ok data)
          else
            (logout env.now s1, .error (.beResponse "Requesting refresh token fail"))
      | .errResponse _ =>
          (logout env.now s1,
           .error (.plainError "Server responded with HTTP status code out of the range of 2xx"))
      | .errNoResponse =>
          (logout env.now s1, .error (.plainError "No response was received"))
      | .errSetup e =>
          (logout env.now s1, .error e)

/-- `UnauthorizedManager.refreshingToken`: the public entry.  Checks the
store, then runs the worker.  In this single-caller sequential embedding
the `#worker` single-flight slot is necessarily empty on entry and is
cleared by the `finally`; the interleaving of concurrent callers is
modelled separately by `SFState`/`SFStep` below. -/
def refreshingToken (env : Env) (s : Sys) : Sys × Except JSError TokenRecord :=
  let s0 : Sys := { s with refreshInvocations := s.refreshInvocations + 1 }
  match s0.store with
  | none => (s0, .error (.noAuthToken "no auth token in local storage"))
  | some _ => _refreshingToken env s0

end UnauthorizedManager

/-- The two rejection values the request interceptor can produce
(`{config, requestInterceptorError}` objects). -/
inductive InterceptorError
  | noAuthToken (msg : String)
  | authTokenExpired (msg : String)
deriving DecidableEq

/-- View an interceptor error as the `Error` instance it carries. -/
def InterceptorError.toJSError : InterceptorError → JSError
  | .noAuthToken m => .noAuthToken m
  | .authTokenExpired m => .authTokenExpired m

/-- The request interceptor (`instance.interceptors.request.use`
fulfilled handler): pass through when `withoutAuth`, otherwise fail fast
with `NoAuthTokenError` / `AuthTokenExpiredError` or attach the
`Access-Token` header.  Runs strictly before any network send. -/
def requestInterceptor (store : Option TokenRecord) (now : Int)
    (config : Config) : Except InterceptorError Config :=
  if config.withoutAuth then .ok config
  else
    match store with
    | none => .error (.noAuthToken "No access token")
    | some tokenObject =>
        if isTokenExpired tokenObject now then
          .error (.authTokenExpired "Token is already expired")
        else
          .ok { config with accessTokenHeader := some tokenObject.token }

/-- The value reaching the response interceptor's `onReject`: either the
request interceptor's `{config, requestInterceptorError}` object or an
axios transport error. -/
inductive RejectedValue
  | interceptorReject (config : Config) (e : InterceptorError)
  | axiosError (config : Config) (t : TransportOutcome)

/-- What the `onReject` classification decides: reject with a
`RequestError`, or enter the refresh-and-retry promise for `config`. -/
inductive RejectAction
  | reject (e : RequestError)
  | refreshAndRetry (config : Config)

/-- The Unauthorized branch of `onReject` (HTTP 401 or pre-flight
`AuthTokenExpiredError`): terminal logout when already `retried`,
otherwise refresh and retry. -/
def unauthorizedBranch (now : Int) (s : Sys) (config : Config)
    (response : Option AxiosResponse) : Sys × RejectAction :=
  if config.retried then
    (UnauthorizedManager.logout now s,
     .reject
       { error := some (.authTokenExpired
           "The request have been retried, but still receive unauthorized error")
         config := some config
         response := response
         isCancelled := false })
  else (s, .refreshAndRetry config)

/-- The `onReject` handler's if-chain, in source order: cancellation,
`NoAuthTokenError`, 401/`AuthTokenExpiredError`, response present,
request-made-but-no-response, setup error. -/
def responseOnRejectClassify (now : Int) (s : Sys) (err : RejectedValue) :
    Sys × RejectAction :=
  match err with
  | .axiosError config .cancelled =>
      (s, .reject { error := none, config := some config, response := none,
                    isCancelled := true })
  | .interceptorReject config (.noAuthToken m) =>
      (UnauthorizedManager.logout now s,
       .reject { error := some (.noAuthToken m), config := some config,
                 response := none, isCancelled := false })
  | .interceptorReject config (.authTokenExpired _) =>
      unauthorizedBranch now s config none
  | .axiosError config (.errResponse 401 p) =>
      unauthorizedBranch now s config
        (some { status := 401, config := config, data := p })
  | .axiosError config (.errResponse st p) =>
      (s, .reject
        { error := some (.plainError
            "Server responded with a status code that is out of range of 2xx")
          config := some config
          response := some { status := st, config := config, data := p }
          isCancelled := false })
  | .axiosError config .errNoResponse =>
      (s, .reject { error := some .serverNoResponse, config := some config,
                    response := none, isCancelled := false })
  | .axiosError config (.errSetup e) =>
      (s, .reject { error := some (.plainError e.message), config := some config,
                    response := none, isCancelled := false })
  | .axiosError config (.ok2xx p) =>
      -- unreachable: a resolved transport goes to onFulfilled, not onReject;
      -- mapped to the final else branch for totality
      (s, .reject { error := some (.plainError ""), config := some config,
                    response := some { status := 200, config := config, data := p }
                    isCancelled := false })

/-- The response interceptor's `onFulfilled`: resolve business-successful
payloads, otherwise (business failure) optionally notify and reject with
a `BEResponseError`-carrying `RequestError`. -/
def responseOnFulfilled (s : Sys) (r : AxiosResponse) :
    Sys × Except RequestError AxiosResponse :=
  if isReqSuccess r.data.status r.data.code then (s, .ok r)
  else
    let s1 :=
      if r.config.disableErrorNotification then s
      else { s with failNotifications := s.failNotifications + 1 }
    let errorMessage :=
      jsStringOr r.data.message
        ("Server Error with code/status: " ++ jsStringOr r.data.code r.data.status)
    (s1, .error
      { error := some (.beResponse errorMessage)
        config := some r.config
        response := some r
        isCancelled := false })

/-- In the retry promise's `catch (error)` the parameter shadows the
original transport error, so `error.config` / `error.response` are read
from the refresh failure — an `Error` instance, which carries neither
field; both reads yield `undefined`. -/
def jsErrorConfigField (_e : JSError) : Option Config := none

/-- See `jsErrorConfigField`. -/
def jsErrorResponseField (_e : JSError) : Option AxiosResponse := none

/-- One pass of `instance(config)`: request interceptor, transport send,
response interceptor, with the Unauthorized recovery path re-entering
the instance once (`fuel` bounds the recursion; the `retried` flag means
depth 2 is never exceeded, see `CALL_API_FUEL`). -/
def runInstance (env : Env) : Nat → Sys → Config →
    Sys × Except RequestError AxiosResponse
  | 0, s, _ =>
      (s, .error { error := none, config := none, response := none,
                   isCancelled := false })
  | fuel + 1, s, config =>
      let attempt : Sys × (RejectedValue ⊕ AxiosResponse) :=
        match requestInterceptor s.store env.now config with
        | .error e => (s, .inl (.interceptorReject config e))
        | .ok config1 =>
            let s1 : Sys :=
              { s with transportCalls := s.transportCalls + 1
                       sentConfigs := s.sentConfigs ++ [config1] }
            match env.transport s.transportCalls with
            | .ok2xx p =>
                (s1, .inr { status := 200, config := config1, data := p })
            | t => (s1, .inl (.axiosError config1 t))
      match attempt with
      | (s1, .inr resp) => responseOnFulfilled s1 resp
      | (s1, .inl err) =>
          match responseOnRejectClassify env.now s1 err with
          | (s2, .reject e) => (s2, .error e)
          | (s2, .refreshAndRetry cfg) =>
              match UnauthorizedManager.refreshingToken env s2 with
              | (s3, .ok _) =>
                  runInstance env fuel s3 { cfg with retried := true }
              | (s3, .error e) =>
                  (s3, .error
                    { error := some e
                      config := jsErrorConfigField e
                      response := jsErrorResponseField e
                      isCancelled := false })

/-- A caller-supplied configuration object: the six recognised fields
(each possibly absent) plus `extra`, the unrecognised fields that
`_pick` drops. -/
structure CallerConfig where
  endpoint : String
  method : Option String
  body : Option JSVal
  cancelToken : Option Nat
  withoutAuth : Option Bool
  disableErrorNotification : Option Bool
  extra : List (String × JSVal)

/-- `_pick(config, PATHS_WHITELIST)`: keep the six recognised fields,
drop everything else. -/
def pickConfig (c : CallerConfig) : CallerConfig :=
  { c with extra := [] }

/-- `_callApi`'s construction of the axios request from the picked
configuration: `{url: endpoint, method = 'get', data: body, ...configs}`.
Absent booleans behave as falsy; `retried` is not a recognised caller
field and always starts unset. -/
def toAxiosConfig (c : CallerConfig) : Config :=
  { url := c.endpoint
    method := c.method.getD "get"
    body := c.body
    cancelToken := c.cancelToken
    withoutAuth := c.withoutAuth.getD false
    disableErrorNotification := c.disableErrorNotification.getD false
    retried := false
    accessTokenHeader := none }

/-- What `callApi` resolves to: the response payload (`resp.data`) on
success, the `RequestError` value on failure.  The facade never rejects:
its `catch` returns the error as an ordinary value. -/
inductive CallApiOutcome
  | payload (p : Payload)
  | requestError (e : RequestError)

/-- One original attempt plus at most one retry: the `retried` flag caps
the recursion of the Unauthorized path, so fuel 2 is never exhausted. -/
def CALL_API_FUEL : Nat := 2

/-- `callApi(config)`: whitelist the configuration, run the pipeline,
return the payload or the caught `RequestError`. -/
def callApi (env : Env) (s : Sys) (config : CallerConfig) :
    Sys × CallApiOutcome :=
  let pickedConfig := pickConfig config
  match runInstance env CALL_API_FUEL s (toAxiosConfig pickedConfig) with
  | (s1, .ok resp) => (s1, .payload resp.data)
  | (s1, .error e) => (s1, .requestError e)

/-- Content of a success/failure notification argument. -/
structure NotificationInfo where
  title : String
  content : String
deriving DecidableEq

/-- The value `config.disableErrorNotification` receives in
`callApiWithNotification`:
`config.disableErrorNotification ?? !!onFail`. -/
def effectiveDisableErrorNotification (supplied : Option Bool)
    (onFailProvided : Bool) : Bool :=
  supplied.getD onFailProvided

/-- Written from the spec sentence "failure notifications default to
enabled only when `onFail` was provided", for comparison with the code:
enabled iff `onFail` provided, i.e. disabled iff `onFail` absent. -/
def specStatedDefaultDisableErrorNotification (onFailProvided : Bool) : Bool :=
  !onFailProvided

/-- `callApiWithNotification(config, {onSuccess, onFail})`.  The source
assigns `config.disableErrorNotification` on the caller's object in
place before picking; the mutated caller object is returned as the
second component to make that write observable. -/
def callApiWithNotification (env : Env) (s : Sys) (config : CallerConfig)
    (onSuccess onFail : Option NotificationInfo) :
    Sys × CallerConfig × CallApiOutcome :=
  let config1 : CallerConfig :=
    { config with
      disableErrorNotification :=
        some (effectiveDisableErrorNotification
          config.disableErrorNotification onFail.isSome) }
  let pickedConfig := pickConfig config1
  match runInstance env CALL_API_FUEL s (toAxiosConfig pickedConfig) with
  | (s1, .ok resp) =>
      let s2 :=
        match onSuccess with
        | some _ => { s1 with successNotifications := s1.successNotifications + 1 }
        | none => s1
      (s2, config1, .payload resp.data)
  | (s1, .error e) =>
      let s2 :=
        if !e.isCancelled then
          match onFail with
          | some _ => { s1 with failNotifications := s1.failNotifications + 1 }
          | none => s1
        else s1
      (s2, config1, .requestError e)

/-! ### Concrete values used by witnesses and counterexamples -/

/-- A fresh system state: empty store, no armed timer, zeroed counters. -/
def sys0 : Sys :=
  { store := none, logoutTimeout := none, logoutCalls := 0, logoutFires := 0
    refreshInvocations := 0, refreshNetCalls := 0, transportCalls := 0
    sentConfigs := [], failNotifications := 0, successNotifications := 0 }

/-- An environment in which every network interaction times out. -/
def env0 : Env :=
  { now := 0, transport := fun _ => .errNoResponse
    refreshOutcome := .errNoResponse }

/-- A minimal caller configuration: only an endpoint. -/
def cfg0 : CallerConfig :=
  { endpoint := "/orders", method := none, body := none, cancelToken := none
    withoutAuth := none, disableErrorNotification := none, extra := [] }

/-! ### Helper lemmas -/

/-- Every entry into `UnauthorizedManager.logout` bumps the call counter,
armed timer or not. -/
theorem logout_logoutCalls (now : Int) (s : Sys) :
    (UnauthorizedManager.logout now s).logoutCalls = s.logoutCalls + 1 := by
  unfold UnauthorizedManager.logout
  split <;> rfl

/-- `logout` touches only the lock, the store and the logout counters. -/
theorem logout_preserves_counters (now : Int) (s : Sys) :
    (UnauthorizedManager.logout now s).refreshInvocations = s.refreshInvocations ∧
    (UnauthorizedManager.logout now s).refreshNetCalls = s.refreshNetCalls ∧
    (UnauthorizedManager.logout now s).transportCalls = s.transportCalls ∧
    (UnauthorizedManager.logout now s).sentConfigs = s.sentConfigs := by
  unfold UnauthorizedManager.logout
  split <;> exact ⟨rfl, rfl, rfl, rfl⟩

/-! ### Claim theorems -/

/-- Claim C10: `getLocalStorageToken` never throws for any store
content: a parse failure and every non-object JSON value (number,
string, boolean) give `null`, and every value of object type — `null`,
arrays, and objects regardless of which fields they carry — is returned
unchanged, with no validation of the TokenRecord shape. -/
theorem getLocalStorageToken_shape :
    getLocalStorageToken (.error ()) = JSVal.null ∧
    (∀ v : JSVal, jsTypeof v = "object" → getLocalStorageToken (.ok v) = v) ∧
    (∀ v : JSVal, jsTypeof v ≠ "object" → getLocalStorageToken (.ok v) = .null) ∧
    (∀ l, getLocalStorageToken (.ok (.arr l)) = .arr l) ∧
    (∀ fs, getLocalStorageToken (.ok (.obj fs)) = .obj fs) := by
  refine ⟨rfl, ?_, ?_, fun l => rfl, fun fs => rfl⟩
  · intro v h
    simp [getLocalStorageToken, h]
  · intro v h
    simp [getLocalStorageToken, h]

/-- Witness for C10 at concrete inputs: a number parses to `null`, an
object missing every TokenRecord field is returned unchanged. -/
theorem getLocalStorageToken_shape_witness :
    getLocalStorageToken (.ok (.num 3)) = JSVal.null ∧
    getLocalStorageToken (.ok (.obj [("foo", .str "A")]))
      = .obj [("foo", .str "A")] :=
  ⟨getLocalStorageToken_shape.2.2.1 (.num 3) (by simp [jsTypeof]),
   getLocalStorageToken_shape.2.1 (.obj [("foo", .str "A")]) rfl⟩

/-- Claim C5: from an idle logout lock, a first `logout()` call fires
the navigation/clear side effect; a second call less than
`LOGOUT_LOCK_TIME` (1000 ms) later is a no-op; a further call once the
cooldown has elapsed fires the side effect again. -/
theorem logout_debounce (s : Sys) (t1 t2 t3 : Int)
    (h0 : s.logoutTimeout = none)
    (h12 : t2 - t1 < LOGOUT_LOCK_TIME)
    (h13 : LOGOUT_LOCK_TIME ≤ t3 - t1) :
    (UnauthorizedManager.logout t1 s).logoutFires = s.logoutFires + 1 ∧
    (UnauthorizedManager.logout t2 (UnauthorizedManager.logout t1 s)).logoutFires
      = (UnauthorizedManager.logout t1 s).logoutFires ∧
    (UnauthorizedManager.logout t3 (UnauthorizedManager.logout t2
        (UnauthorizedManager.logout t1 s))).logoutFires
      = (UnauthorizedManager.logout t2 (UnauthorizedManager.logout t1 s)).logoutFires
        + 1 := by
  have e1 : UnauthorizedManager.logout t1 s =
      { s with logoutCalls := s.logoutCalls + 1, logoutTimeout := some t1,
               store := none, logoutFires := s.logoutFires + 1 } := by
    unfold UnauthorizedManager.logout
    rw [h0]
    simp [logoutTimerActive]
  have ha : logoutTimerActive t2 (some t1) = true := by
    simp [logoutTimerActive]
    exact h12
  have hb : logoutTimerActive t3 (some t1) = false := by
    simp [logoutTimerActive]
    omega
  have e2 : UnauthorizedManager.logout t2 (UnauthorizedManager.logout t1 s) =
      { s with logoutCalls := s.logoutCalls + 2, logoutTimeout := some t1,
               store := none, logoutFires := s.logoutFires + 1 } := by
    rw [e1]
    unfold UnauthorizedManager.logout
    simp [ha]
  refine ⟨by rw [e1], by rw [e2, e1], ?_⟩
  rw [e2]
  conv_lhs => unfold UnauthorizedManager.logout
  simp [hb]

/-- Witness for C5: calls at 0 ms, 500 ms and 1000 ms from a fresh
state fire the side effect once, zero and once more respectively. -/
theorem logout_debounce_witness :
    (UnauthorizedManager.logout 0 sys0).logoutFires = sys0.logoutFires + 1 ∧
    (UnauthorizedManager.logout 500 (UnauthorizedManager.logout 0 sys0)).logoutFires
      = (UnauthorizedManager.logout 0 sys0).logoutFires ∧
    (UnauthorizedManager.logout 1000 (UnauthorizedManager.logout 500
        (UnauthorizedManager.logout 0 sys0))).logoutFires
      = (UnauthorizedManager.logout 500 (UnauthorizedManager.logout 0 sys0)).logoutFires
        + 1 :=
  logout_debounce sys0 0 500 1000 rfl (by decide) (by decide)

/-- Counterexample to claim C3 as stated: a failure of the refresh
operation that does not trigger `logout()`.  With an empty store the
worker fails with `NoAuthTokenError` (thrown before the `try` block) and
the logout delegate is never entered: the final state still has zero
`logout` calls. -/
theorem refresh_failure_without_logout :
    (UnauthorizedManager._refreshingToken env0 sys0).2
      = .error (.noAuthToken "no auth token in local storage") ∧
    (UnauthorizedManager._refreshingToken env0 sys0).1.logoutCalls = 0 ∧
    sys0.logoutCalls = 0 :=
  ⟨rfl, rfl, rfl⟩

/-- Claim C3 (amended): for every failure of the refresh network attempt
made once a token record was found, `logout()` is triggered, and the
propagated error is classified as: business failure (payload present but
status not successful) → `BEResponseError` unchanged; response received
with status out of 2xx → a generic `Error` ("Server responded with HTTP
status code out of the range of 2xx"); request sent but no response →
the "No response was received" error; any other (setup) error →
propagated as-is.  The no-token precondition failure, by contrast,
propagates `NoAuthTokenError` without a logout (see the
counterexample). -/
theorem refresh_failure_logout_and_classification
    (env : Env) (s : Sys) (tok : TokenRecord) (h : s.store = some tok) :
    (∀ rp, env.refreshOutcome = .ok2xx rp →
      isReqSuccess rp.status rp.code = false →
      ∃ s1, UnauthorizedManager._refreshingToken env s
          = (s1, .error (.beResponse "Requesting refresh token fail")) ∧
        s1.logoutCalls = s.logoutCalls + 1) ∧
    (∀ st, env.refreshOutcome = .errResponse st →
      ∃ s1, UnauthorizedManager._refreshingToken env s
          = (s1, .error (.plainError
              "Server responded with HTTP status code out of the range of 2xx")) ∧
        s1.logoutCalls = s.logoutCalls + 1) ∧
    (env.refreshOutcome = .errNoResponse →
      ∃ s1, UnauthorizedManager._refreshingToken env s
          = (s1, .error (.plainError "No response was received")) ∧
        s1.logoutCalls = s.logoutCalls + 1) ∧
    (∀ e, env.refreshOutcome = .errSetup e →
      ∃ s1, UnauthorizedManager._refreshingToken env s = (s1, .error e) ∧
        s1.logoutCalls = s.logoutCalls + 1) := by
  refine ⟨?_, ?_, ?_, ?_⟩
  · intro rp hro hfail
    have he : UnauthorizedManager._refreshingToken env s
        = (UnauthorizedManager.logout env.now
            { s with refreshNetCalls := s.refreshNetCalls + 1 },
           .error (.beResponse "Requesting refresh token fail")) := by
      unfold UnauthorizedManager._refreshingToken
      rw [h, hro]
      simp [hfail]
    exact ⟨_, he, by rw [logout_logoutCalls]⟩
  · intro st hro
    have he : UnauthorizedManager._refreshingToken env s
        = (UnauthorizedManager.logout env.now
            { s with refreshNetCalls := s.refreshNetCalls + 1 },
           .error (.plainError
             "Server responded with HTTP status code out of the range of 2xx")) := by
      unfold UnauthorizedManager._refreshingToken
      rw [h, hro]
    exact ⟨_, he, by rw [logout_logoutCalls]⟩
  · intro hro
    have he : UnauthorizedManager._refreshingToken env s
        = (UnauthorizedManager.logout env.now
            { s with refreshNetCalls := s.refreshNetCalls + 1 },
           .error (.plainError "No response was received")) := by
      unfold UnauthorizedManager._refreshingToken
      rw [h, hro]
    exact ⟨_, he, by rw [logout_logoutCalls]⟩
  · intro e hro
    have he : UnauthorizedManager._refreshingToken env s
        = (UnauthorizedManager.logout env.now
            { s with refreshNetCalls := s.refreshNetCalls + 1 },
           .error e) := by
      unfold UnauthorizedManager._refreshingToken
      rw [h, hro]
    exact ⟨_, he, by rw [logout_logoutCalls]⟩

/-- Witness for C3 (amended) at a concrete input: a timed-out refresh
for a stored record triggers the logout delegate once and propagates the
"No response was received" error. -/
theorem refresh_failure_logout_and_classification_witness :
    ∃ s1, UnauthorizedManager._refreshingToken env0
        { sys0 with store := some { token := "A", refreshToken := "R", expireAt := 99 } }
        = (s1, .error (.plainError "No response was received")) ∧
      s1.logoutCalls =
        ({ sys0 with store := some { token := "A", refreshToken := "R", expireAt := 99 } } : Sys).logoutCalls + 1 :=
  (refresh_failure_logout_and_classification env0 _
    { token := "A", refreshToken := "R", expireAt := 99 } rfl).2.2.1 rfl

/-- Counterexample to claim C7 as stated: with `onFail` supplied and no
explicit flag, the effective `disableErrorNotification` the caller's
object ends up with is `true`, whereas the spec's stated default
("enabled only when `onFail` was provided") would make it `false`. -/
theorem callApiWithNotification_default_counterexample :
    (callApiWithNotification env0 sys0 cfg0 none
        (some { title := "t", content := "c" })).2.1.disableErrorNotification
      = some true ∧
    specStatedDefaultDisableErrorNotification true = false ∧
    (callApiWithNotification env0 sys0 cfg0 none
        (some { title := "t", content := "c" })).2.1.disableErrorNotification
      ≠ some (specStatedDefaultDisableErrorNotification true) := by
  refine ⟨rfl, rfl, ?_⟩
  decide

/-- The caller's object, as returned by `callApiWithNotification`,
differs from the input only in `disableErrorNotification`. -/
theorem callApiWithNotification_returns_config
    (env : Env) (s : Sys) (config : CallerConfig)
    (onSuccess onFail : Option NotificationInfo) :
    (callApiWithNotification env s config onSuccess onFail).2.1
      = { config with
          disableErrorNotification :=
            some (effectiveDisableErrorNotification
              config.disableErrorNotification onFail.isSome) } := by
  unfold callApiWithNotification
  rcases hrun : runInstance env CALL_API_FUEL s
      (toAxiosConfig (pickConfig
        { config with
          disableErrorNotification :=
            some (effectiveDisableErrorNotification
              config.disableErrorNotification onFail.isSome) })) with ⟨s1, r⟩
  cases r <;> simp [hrun]

/-- Claim C7 (amended): when the caller supplies neither an explicit
`disableErrorNotification` flag nor `onFail`, the effective flag is
`false`, so the pipeline's own failure notification is enabled; when
`onFail` is supplied and no explicit flag is given, the effective flag
is `true`, i.e. the pipeline's failure notification is disabled — it is
enabled exactly when `onFail` is absent, the opposite of the spec's
stated default.  The last conjunct ties "enabled" to behaviour: with the
flag `false`, a business failure actually fires the pipeline
notification. -/
theorem callApiWithNotification_default_flag
    (env : Env) (s : Sys) (config : CallerConfig)
    (onSuccess onFail : Option NotificationInfo)
    (h : config.disableErrorNotification = none) :
    (callApiWithNotification env s config onSuccess onFail).2.1.disableErrorNotification
      = some onFail.isSome ∧
    effectiveDisableErrorNotification none false = false ∧
    effectiveDisableErrorNotification none true = true ∧
    (∀ (s9 : Sys) (r : AxiosResponse),
      r.config.disableErrorNotification = false →
      isReqSuccess r.data.status r.data.code = false →
      (responseOnFulfilled s9 r).1.failNotifications
        = s9.failNotifications + 1) := by
  refine ⟨?_, rfl, rfl, ?_⟩
  · rw [callApiWithNotification_returns_config]
    simp [h, effectiveDisableErrorNotification]
  · intro s9 r hflag hfail
    unfold responseOnFulfilled
    simp [hfail, hflag]

/-- Witness for C7 (amended) at concrete inputs: with no flag and no
`onFail` the caller's object ends with `disableErrorNotification =
some false` (pipeline notifications enabled). -/
theorem callApiWithNotification_default_flag_witness :
    (callApiWithNotification env0 sys0 cfg0 none none).2.1.disableErrorNotification
      = some ((none : Option NotificationInfo)).isSome :=
  (callApiWithNotification_default_flag env0 sys0 cfg0 none none rfl).1

/-- Claim C9: `callApiWithNotification` mutates the caller-supplied
configuration object in place, assigning `disableErrorNotification :=
config.disableErrorNotification ?? !!onFail` before the call is made;
every other field of the caller's object is left unchanged, and the
write is visible on the returned (caller's) object. -/
theorem callApiWithNotification_mutates_config
    (env : Env) (s : Sys) (config : CallerConfig)
    (onSuccess onFail : Option NotificationInfo) :
    (callApiWithNotification env s config onSuccess onFail).2.1
      = { config with
          disableErrorNotification :=
            some (effectiveDisableErrorNotification
              config.disableErrorNotification onFail.isSome) } :=
  callApiWithNotification_returns_config env s config onSuccess onFail

/-! ### Further concrete values for pipeline witnesses -/

/-- An already-expired stored record (relative to `env0.now = 0`). -/
def tok0 : TokenRecord := { token := "A", refreshToken := "R", expireAt := -1 }

/-- A record that is still valid at `env0.now = 0`. -/
def tokValid : TokenRecord := { token := "A", refreshToken := "R", expireAt := 99 }

/-- `sys0` with `tok0` in the store. -/
def sysTok : Sys := { sys0 with store := some tok0 }

/-- A plain authenticated axios request configuration. -/
def cfgPlain : Config :=
  { url := "/orders", method := "get", body := none, cancelToken := none
    withoutAuth := false, disableErrorNotification := false, retried := false
    accessTokenHeader := none }

/-- Claim C8: when the Unauthorized recovery path's refresh fails, the
rejected `RequestError` wraps the refresh error as its `error` field,
but its `config` and `response` fields are read from that refresh error
object (the `catch (error)` parameter shadows the original transport
error), so the original request's config and response are not attached:
both fields are `undefined`. -/
theorem refresh_failure_shadowed_fields
    (env : Env) (s : Sys) (cfg : Config) (tok : TokenRecord) (e : JSError)
    (hs : s.store = some tok)
    (hw : cfg.withoutAuth = false)
    (hexp : tok.expireAt < env.now)
    (hr : cfg.retried = false)
    (hfail : (UnauthorizedManager.refreshingToken env s).2 = .error e) :
    runInstance env CALL_API_FUEL s cfg
      = ((UnauthorizedManager.refreshingToken env s).1,
         .error { error := some e
                  config := jsErrorConfigField e
                  response := jsErrorResponseField e
                  isCancelled := false }) ∧
    jsErrorConfigField e = none ∧ jsErrorResponseField e = none := by
  refine ⟨?_, rfl, rfl⟩
  have hint : requestInterceptor s.store env.now cfg
      = .error (.authTokenExpired "Token is already expired") := by
    simp [requestInterceptor, hs, hw, isTokenExpired, hexp]
  have hcls : responseOnRejectClassify env.now s
      (.interceptorReject cfg (.authTokenExpired "Token is already expired"))
      = (s, .refreshAndRetry cfg) := by
    simp [responseOnRejectClassify, unauthorizedBranch, hr]
  rcases hrt : UnauthorizedManager.refreshingToken env s with ⟨s3, r⟩
  cases r with
  | ok v =>
      rw [hrt] at hfail
      simp at hfail
  | error e2 =>
      rw [hrt] at hfail
      simp at hfail
      subst hfail
      show runInstance env 2 s cfg = _
      unfold runInstance
      rw [hint]
      simp only []
      rw [hcls]
      simp [hrt]

/-- Witness for C8 at a concrete input: expired record, refresh times
out; the propagated `RequestError` carries the refresh error and no
config/response. -/
theorem refresh_failure_shadowed_fields_witness :
    runInstance env0 CALL_API_FUEL sysTok cfgPlain
      = ((UnauthorizedManager.refreshingToken env0 sysTok).1,
         .error { error := some (.plainError "No response was received")
                  config := jsErrorConfigField (.plainError "No response was received")
                  response := jsErrorResponseField (.plainError "No response was received")
                  isCancelled := false }) ∧
    jsErrorConfigField (.plainError "No response was received") = none ∧
    jsErrorResponseField (.plainError "No response was received") = none :=
  refresh_failure_shadowed_fields env0 sysTok cfgPlain tok0
    (.plainError "No response was received") rfl rfl (by decide) rfl rfl

/-- A 2xx business-failure payload used in witnesses. -/
def payload0 : Payload :=
  { status := "FAIL", code := "X", message := "bad input", data := .null }

/-- An environment whose transport always answers HTTP 401. -/
def env401 : Env :=
  { now := 0, transport := fun _ => .errResponse 401 payload0
    refreshOutcome := .errNoResponse }

/-- `sys0` with a still-valid record in the store. -/
def sysValid : Sys := { sys0 with store := some tokValid }

/-- `cfgPlain` already marked as retried. -/
def cfgRetried : Config := { cfgPlain with retried := true }

/-- Claim C4: a request already marked `retried` that receives HTTP 401
(first conjunct) or a pre-flight `TokenExpired` (second conjunct) is
terminal: `logout()` is invoked, a `TokenExpired`
(`AuthTokenExpiredError`) is propagated as the result, and no second
refresh is attempted (the refresh counters are unchanged). -/
theorem retried_unauthorized_terminal
    (env : Env) (s : Sys) (cfg : Config) (tok : TokenRecord) (p : Payload)
    (hs : s.store = some tok)
    (hw : cfg.withoutAuth = false)
    (hr : cfg.retried = true)
    (hvalid : ¬ tok.expireAt < env.now)
    (htr : env.transport s.transportCalls = .errResponse 401 p) :
    (∃ s1,
      runInstance env CALL_API_FUEL s cfg
        = (s1, .error
            { error := some (.authTokenExpired
                "The request have been retried, but still receive unauthorized error")
              config := some { cfg with accessTokenHeader := some tok.token }
              response := some
                { status := 401
                  config := { cfg with accessTokenHeader := some tok.token }
                  data := p }
              isCancelled := false }) ∧
      s1.refreshInvocations = s.refreshInvocations ∧
      s1.refreshNetCalls = s.refreshNetCalls ∧
      s1.logoutCalls = s.logoutCalls + 1) ∧
    (∀ (s9 : Sys) (cfg9 : Config) (tok9 : TokenRecord),
      s9.store = some tok9 → cfg9.withoutAuth = false → cfg9.retried = true →
      tok9.expireAt < env.now →
      ∃ s1,
        runInstance env CALL_API_FUEL s9 cfg9
          = (s1, .error
              { error := some (.authTokenExpired
                  "The request have been retried, but still receive unauthorized error")
                config := some cfg9
                response := none
                isCancelled := false }) ∧
        s1.refreshInvocations = s9.refreshInvocations ∧
        s1.refreshNetCalls = s9.refreshNetCalls ∧
        s1.logoutCalls = s9.logoutCalls + 1) := by
  constructor
  · have hint : requestInterceptor s.store env.now cfg
        = .ok { cfg with accessTokenHeader := some tok.token } := by
      simp [requestInterceptor, hs, hw, isTokenExpired, hvalid]
    have hrun : runInstance env CALL_API_FUEL s cfg
        = (UnauthorizedManager.logout env.now
            { s with transportCalls := s.transportCalls + 1
                     sentConfigs := s.sentConfigs
                       ++ [{ cfg with accessTokenHeader := some tok.token }] },
           .error
            { error := some (.authTokenExpired
                "The request have been retried, but still receive unauthorized error")
              config := some { cfg with accessTokenHeader := some tok.token }
              response := some
                { status := 401
                  config := { cfg with accessTokenHeader := some tok.token }
                  data := p }
              isCancelled := false }) := by
      show runInstance env 2 s cfg = _
      unfold runInstance
      rw [hint]
      simp only []
      rw [htr]
      simp [responseOnRejectClassify, unauthorizedBranch, hr]
    refine ⟨_, hrun, ?_, ?_, ?_⟩
    · rw [(logout_preserves_counters _ _).1]
    · rw [(logout_preserves_counters _ _).2.1]
    · rw [logout_logoutCalls]
  · intro s9 cfg9 tok9 hs9 hw9 hr9 hexp9
    have hint9 : requestInterceptor s9.store env.now cfg9
        = .error (.authTokenExpired "Token is already expired") := by
      simp [requestInterceptor, hs9, hw9, isTokenExpired, hexp9]
    have hrun : runInstance env CALL_API_FUEL s9 cfg9
        = (UnauthorizedManager.logout env.now s9,
           .error
            { error := some (.authTokenExpired
                "The request have been retried, but still receive unauthorized error")
              config := some cfg9
              response := none
              isCancelled := false }) := by
      show runInstance env 2 s9 cfg9 = _
      unfold runInstance
      rw [hint9]
      simp [responseOnRejectClassify, unauthorizedBranch, hr9]
    refine ⟨_, hrun, ?_, ?_, ?_⟩
    · rw [(logout_preserves_counters _ _).1]
    · rw [(logout_preserves_counters _ _).2.1]
    · rw [logout_logoutCalls]

/-- Witness for C4 at concrete inputs: a valid token, a retried request,
transport answering 401. -/
theorem retried_unauthorized_terminal_witness :
    ∃ s1,
      runInstance env401 CALL_API_FUEL sysValid cfgRetried
        = (s1, .error
            { error := some (.authTokenExpired
                "The request have been retried, but still receive unauthorized error")
              config := some { cfgRetried with accessTokenHeader := some tokValid.token }
              response := some
                { status := 401
                  config := { cfgRetried with accessTokenHeader := some tokValid.token }
                  data := payload0 }
              isCancelled := false }) ∧
      s1.refreshInvocations = sysValid.refreshInvocations ∧
      s1.refreshNetCalls = sysValid.refreshNetCalls ∧
      s1.logoutCalls = sysValid.logoutCalls + 1 :=
  (retried_unauthorized_terminal env401 sysValid cfgRetried tokValid payload0
    rfl rfl rfl (by decide) rfl).1

/-- Claim C2: for an authenticated call whose stored record is expired
and not yet retried, in an environment where the refresh and the retried
transport both succeed: the pre-flight rejects with `TokenExpired`
before any network I/O for that request (last conjunct, and the only
config ever sent is the retried one), `refreshingToken` is invoked
exactly once, the store ends holding the refreshed record, the original
request is resubmitted exactly once with `retried = true` (and the new
`Access-Token` header), and the facade returns the response's payload. -/
theorem callApi_expired_token_refresh_retry
    (n : Int) (tok : TokenRecord) (rp : RefreshPayload) (p : Payload)
    (s : Sys) (callerCfg : CallerConfig)
    (hs : s.store = some tok)
    (hexp : tok.expireAt < n)
    (hw : callerCfg.withoutAuth.getD false = false)
    (hrp : isReqSuccess rp.status rp.code = true)
    (hnew : ¬ rp.data.expireAt < n)
    (hp : isReqSuccess p.status p.code = true) :
    ∃ s1,
      callApi { now := n, transport := fun _ => .ok2xx p, refreshOutcome := .ok2xx rp }
          s callerCfg
        = (s1, .payload p) ∧
      s1.refreshInvocations = s.refreshInvocations + 1 ∧
      s1.refreshNetCalls = s.refreshNetCalls + 1 ∧
      s1.store = some rp.data ∧
      s1.transportCalls = s.transportCalls + 1 ∧
      s1.sentConfigs = s.sentConfigs ++
        [{ toAxiosConfig (pickConfig callerCfg) with
           retried := true
           accessTokenHeader := some rp.data.token }] ∧
      requestInterceptor s.store n (toAxiosConfig (pickConfig callerCfg))
        = .error (.authTokenExpired "Token is already expired") := by
  set env : Env :=
    { now := n, transport := fun _ => .ok2xx p, refreshOutcome := .ok2xx rp }
    with henv
  set cfg0 : Config := toAxiosConfig (pickConfig callerCfg) with hcfg0
  have hw0 : cfg0.withoutAuth = false := hw
  have hr0 : cfg0.retried = false := rfl
  have hint : requestInterceptor s.store n cfg0
      = .error (.authTokenExpired "Token is already expired") := by
    simp [requestInterceptor, hs, hw0, isTokenExpired, hexp]
  have hcls : responseOnRejectClassify n s
      (.interceptorReject cfg0 (.authTokenExpired "Token is already expired"))
      = (s, .refreshAndRetry cfg0) := by
    simp [responseOnRejectClassify, unauthorizedBranch, hr0]
  set sc : Sys :=
    { s with refreshInvocations := s.refreshInvocations + 1
             refreshNetCalls := s.refreshNetCalls + 1
             store := some rp.data } with hsc
  have hrt : UnauthorizedManager.refreshingToken env s = (sc, .ok rp.data) := by
    unfold UnauthorizedManager.refreshingToken UnauthorizedManager._refreshingToken
    simp [hs, hrp, DEBUG_TOKEN_EXPIRED_AFTER_10_SEC]
  have hint2 : requestInterceptor sc.store n { cfg0 with retried := true }
      = .ok { cfg0 with retried := true, accessTokenHeader := some rp.data.token } := by
    have hscs : sc.store = some rp.data := rfl
    simp [requestInterceptor, hscs, hw0, isTokenExpired, hnew]
  have hrun : runInstance env CALL_API_FUEL s cfg0
      = ({ sc with
           transportCalls := sc.transportCalls + 1
           sentConfigs := sc.sentConfigs ++
             [{ cfg0 with
                retried := true
                accessTokenHeader := some rp.data.token }] },
         .ok
           { status := 200
             config :=
               { cfg0 with
                 retried := true
                 accessTokenHeader := some rp.data.token }
             data := p }) := by
    show runInstance env 2 s cfg0 = _
    unfold runInstance
    rw [show env.now = n from rfl, hint]
    simp only []
    rw [hcls]
    simp only []
    rw [hrt]
    simp only []
    unfold runInstance
    rw [show env.now = n from rfl, hint2]
    simp only []
    simp [responseOnFulfilled, hp]
  refine ⟨{ sc with
            transportCalls := sc.transportCalls + 1
            sentConfigs := sc.sentConfigs ++
              [{ cfg0 with
                 retried := true
                 accessTokenHeader := some rp.data.token }] },
    ?_, rfl, rfl, rfl, rfl, rfl, hint⟩
  unfold callApi
  simp only [← hcfg0]
  simp only [hrun]

/-- A business-successful refresh payload carrying a valid record. -/
def rpOk : RefreshPayload := { status := "200", code := "CM000000", data := tokValid }

/-- A business-successful transport payload. -/
def pOk : Payload := { status := "200", code := "CM000000", message := "", data := .null }

/-- Witness for C2 at the spec's scenario: expired stored record,
`GET /orders`, refresh and retried transport both succeed. -/
theorem callApi_expired_token_refresh_retry_witness :
    ∃ s1,
      callApi { now := 0, transport := fun _ => .ok2xx pOk, refreshOutcome := .ok2xx rpOk }
          sysTok cfg0
        = (s1, .payload pOk) ∧
      s1.refreshInvocations = sysTok.refreshInvocations + 1 ∧
      s1.refreshNetCalls = sysTok.refreshNetCalls + 1 ∧
      s1.store = some rpOk.data ∧
      s1.transportCalls = sysTok.transportCalls + 1 ∧
      s1.sentConfigs = sysTok.sentConfigs ++
        [{ toAxiosConfig (pickConfig cfg0) with
           retried := true
           accessTokenHeader := some rpOk.data.token }] ∧
      requestInterceptor sysTok.store 0 (toAxiosConfig (pickConfig cfg0))
        = .error (.authTokenExpired "Token is already expired") :=
  callApi_expired_token_refresh_retry 0 tok0 rpOk pOk sysTok cfg0
    rfl (by decide) rfl rfl (by decide) rfl

/-- Claim C6: `callApi` restricts the caller-supplied configuration to
the recognised option whitelist (unrecognised fields are dropped and
cannot influence the outcome), and it never throws: for every
environment its result is either the successful payload or the
classified `RequestError` value, distinguished only by the returned
value's shape. -/
theorem callApi_shape_and_whitelist (env : Env) (s : Sys) (config : CallerConfig) :
    (∀ extra2, callApi env s { config with extra := extra2 } = callApi env s config) ∧
    (pickConfig config).extra = [] ∧
    (∀ s1 out, callApi env s config = (s1, out) →
      (∃ p, out = .payload p) ∨ (∃ e, out = .requestError e)) := by
  refine ⟨?_, rfl, ?_⟩
  · intro extra2
    rfl
  · intro s1 out _
    cases out with
    | payload p => exact Or.inl ⟨p, rfl⟩
    | requestError e => exact Or.inr ⟨e, rfl⟩

/-- Witness for C6 at concrete inputs: a call with an unrecognised extra
field behaves identically to the same call without it, and the concrete
outcome has one of the two result shapes. -/
theorem callApi_shape_and_whitelist_witness :
    callApi env0 sys0 { cfg0 with extra := [("rogue", .num 1)] }
      = callApi env0 sys0 cfg0 ∧
    ((∃ p, (callApi env0 sys0 cfg0).2 = .payload p) ∨
      (∃ e, (callApi env0 sys0 cfg0).2 = .requestError e)) :=
  ⟨(callApi_shape_and_whitelist env0 sys0 cfg0).1 [("rogue", .num 1)],
   (callApi_shape_and_whitelist env0 sys0 cfg0).2.2
     (callApi env0 sys0 cfg0).1 (callApi env0 sys0 cfg0).2 rfl⟩

/-! ### Single-flight refresh under interleaved callers (claim C1)

`refreshingToken`'s concurrency is modelled as a transition system over
the cooperative event-loop semantics of §5 of the spec.  A caller that
has hit Unauthorized executes `refreshingToken` atomically up to its
`await this.#worker` (the spec's "not yielding control between 'check if
a refresh is in flight' and 'register as awaiting it'"); this is the
`call` step (slot empty: start a new worker generation and await it) and
the `join` step (slot occupied: await the existing generation).  When a
worker's promise settles, every awaiting caller runs its continuation —
`return nextTokenObj` followed by the `finally` that nulls `#worker` —
and these continuations are adjacent microtasks of one drain, so the
`settle` step delivers the single resolution value to all waiters and
clears the slot atomically.  `gens` records one entry per network
refresh ever started: `none` while in flight, `some r` once settled. -/

/-- The phase of one `refreshingToken` caller. -/
inductive CallerSt (R : Type)
  | ready
  | waiting (gen : Nat)
  | done (gen : Nat) (r : R)
deriving DecidableEq

/-- Global state: the callers, the `#worker` single-flight slot (as the
generation it holds), and the log of started refresh generations. -/
structure SFState (R : Type) where
  callers : List (CallerSt R)
  slot : Option Nat
  gens : List (Option R)
deriving DecidableEq

/-- `N` callers, each having hit Unauthorized, none having called yet;
no worker, no refresh started. -/
def sfInit (R : Type) (N : Nat) : SFState R :=
  { callers := List.replicate N .ready, slot := none, gens := [] }

/-- The settled worker's resolution reaches exactly its awaiters. -/
def deliver {R : Type} (g : Nat) (r : R) : CallerSt R → CallerSt R
  | .waiting g2 => if g2 = g then .done g r else .waiting g2
  | c => c

/-- One scheduler step (see the section comment for the granularity). -/
inductive SFStep {R : Type} : SFState R → SFState R → Prop
  | call (s : SFState R) (i : Nat)
      (hc : s.callers.get? i = some .ready) (hs : s.slot = none) :
      SFStep s { callers := s.callers.set i (.waiting s.gens.length)
                 slot := some s.gens.length
                 gens := s.gens ++ [none] }
  | join (s : SFState R) (i g : Nat)
      (hc : s.callers.get? i = some .ready) (hs : s.slot = some g) :
      SFStep s { s with callers := s.callers.set i (.waiting g) }
  | settle (s : SFState R) (g : Nat) (r : R)
      (hg : s.gens.get? g = some none) :
      SFStep s { callers := s.callers.map (deliver g r)
                 slot := none
                 gens := s.gens.set g (some r) }

/-- States reachable from `N` fresh concurrent callers. -/
inductive SFReach {R : Type} (N : Nat) : SFState R → Prop
  | init : SFReach N (sfInit R N)
  | step {s s2 : SFState R} : SFReach N s → SFStep s s2 → SFReach N s2

/-- Generation `g` is a live (started, unsettled) refresh. -/
def liveGen {R : Type} (s : SFState R) (g : Nat) : Prop :=
  s.gens.get? g = some none

/-- A `get?` hit is within bounds. -/
theorem sfGet_some_lt {α : Type _} :
    ∀ {l : List α} {i : Nat} {a : α}, l.get? i = some a → i < l.length := by
  intro l
  induction l with
  | nil => intro i a h; simp [List.get?] at h
  | cons x xs ih =>
      intro i a h
      cases i with
      | zero => simp
      | succ n =>
          simp only [List.get?] at h
          simpa using Nat.succ_lt_succ (ih h)

/-- Within bounds, `get?` hits. -/
theorem sfGet_lt_some {α : Type _} :
    ∀ {l : List α} {i : Nat}, i < l.length → ∃ a, l.get? i = some a := by
  intro l
  induction l with
  | nil => intro i h; simp at h
  | cons x xs ih =>
      intro i h
      cases i with
      | zero => exact ⟨x, rfl⟩
      | succ n => exact ih (by simpa using h)

/-- The single-flight invariant: the slot points at the unique live
generation, waiters wait on live generations, every live generation has
a waiter (its starter), and settled generations match their done
observers. -/
structure SFInv {R : Type} (N : Nat) (s : SFState R) : Prop where
  len : s.callers.length = N
  slot_live : ∀ g, s.slot = some g → s.gens.get? g = some none
  live_slot : ∀ g, s.gens.get? g = some none → s.slot = some g
  waiting_live : ∀ i g, s.callers.get? i = some (.waiting g) →
    s.gens.get? g = some none
  live_waiter : ∀ g, s.gens.get? g = some none →
    ∃ i, s.callers.get? i = some (.waiting g)
  done_settled : ∀ i g r, s.callers.get? i = some (.done g r) →
    s.gens.get? g = some (some r)
  settled_done : ∀ g r, s.gens.get? g = some (some r) →
    ∃ i, s.callers.get? i = some (.done g r)

/-- The invariant holds initially. -/
theorem sfInv_init (R : Type) (N : Nat) : SFInv N (sfInit R N) := by
  refine ⟨by simp [sfInit], ?_, ?_, ?_, ?_, ?_, ?_⟩
  · intro g h; simp [sfInit] at h
  · intro g h; simp [sfInit, List.get?] at h
  · intro i g h
    have := List.eq_of_mem_replicate (List.get?_mem h)
    simp at this
  · intro g h; simp [sfInit, List.get?] at h
  · intro i g r h
    have := List.eq_of_mem_replicate (List.get?_mem h)
    simp at this
  · intro g r h; simp [sfInit, List.get?] at h

/-- The single-flight invariant is preserved by every scheduler step. -/
theorem sfInv_step {R : Type} {N : Nat} {s s2 : SFState R}
    (inv : SFInv N s) (st : SFStep s s2) : SFInv N s2 := by
  cases st with
  | call i hc hs =>
      have hnolive : ∀ g, s.gens.get? g = some none → False := by
        intro g hg
        have h2 := inv.live_slot g hg
        rw [hs] at h2
        exact Option.noConfusion h2
      have hlen : i < s.callers.length := sfGet_some_lt hc
      have hget : ∀ g, (s.gens ++ [(none : Option R)]).get? g = some none →
          g = s.gens.length := by
        intro g hg
        rcases Nat.lt_or_ge g s.gens.length with hlt | hge
        · rw [List.get?_append hlt] at hg
          exact (hnolive g hg).elim
        · have h2 : g < s.gens.length + 1 := by
            have h3 := sfGet_some_lt hg
            simpa using h3
          omega
      refine ⟨by simpa using inv.len, ?_, ?_, ?_, ?_, ?_, ?_⟩
      · intro g hgs
        obtain rfl : s.gens.length = g := by simpa using hgs
        exact List.get?_concat_length _ _
      · intro g hg
        rw [hget g hg]
      · intro j g hj
        by_cases hij : j = i
        · subst hij
          rw [List.get?_set_eq_of_lt _ hlen] at hj
          obtain rfl : s.gens.length = g := by simpa using hj
          exact List.get?_concat_length _ _
        · rw [List.get?_set_ne _ _ (Ne.symm hij)] at hj
          exact (hnolive g (inv.waiting_live j g hj)).elim
      · intro g hg
        obtain rfl : g = s.gens.length := hget g hg
        exact ⟨i, by rw [List.get?_set_eq_of_lt _ hlen]⟩
      · intro j g r hj
        by_cases hij : j = i
        · subst hij
          rw [List.get?_set_eq_of_lt _ hlen] at hj
          exact absurd hj (by simp)
        · rw [List.get?_set_ne _ _ (Ne.symm hij)] at hj
          have h2 := inv.done_settled j g r hj
          have h3 : g < s.gens.length := sfGet_some_lt h2
          rw [List.get?_append h3]
          exact h2
      · intro g r hg
        rcases Nat.lt_or_ge g s.gens.length with hlt | hge
        · rw [List.get?_append hlt] at hg
          obtain ⟨j, hj⟩ := inv.settled_done g r hg
          have hij : j ≠ i := by
            intro h2
            subst h2
            rw [hj] at hc
            exact absurd hc (by simp)
          exact ⟨j, by rw [List.get?_set_ne _ _ (Ne.symm hij)]; exact hj⟩
        · have h2 : g < s.gens.length + 1 := by
            have h3 := sfGet_some_lt hg
            simpa using h3
          obtain rfl : g = s.gens.length := by omega
          rw [List.get?_concat_length] at hg
          exact absurd hg (by simp)
  | join i g hc hs =>
      have hlen : i < s.callers.length := sfGet_some_lt hc
      have hlive : s.gens.get? g = some none := inv.slot_live g hs
      refine ⟨by simpa using inv.len, inv.slot_live, inv.live_slot, ?_, ?_, ?_, ?_⟩
      · intro j g2 hj
        by_cases hij : j = i
        · subst hij
          rw [List.get?_set_eq_of_lt _ hlen] at hj
          obtain rfl : g = g2 := by simpa using hj
          exact hlive
        · rw [List.get?_set_ne _ _ (Ne.symm hij)] at hj
          exact inv.waiting_live j g2 hj
      · intro g2 h2
        obtain ⟨j, hj⟩ := inv.live_waiter g2 h2
        have hij : j ≠ i := by
          intro h3
          subst h3
          rw [hj] at hc
          exact absurd hc (by simp)
        exact ⟨j, by rw [List.get?_set_ne _ _ (Ne.symm hij)]; exact hj⟩
      · intro j g2 r2 hj
        by_cases hij : j = i
        · subst hij
          rw [List.get?_set_eq_of_lt _ hlen] at hj
          exact absurd hj (by simp)
        · rw [List.get?_set_ne _ _ (Ne.symm hij)] at hj
          exact inv.done_settled j g2 r2 hj
      · intro g2 r2 h2
        obtain ⟨j, hj⟩ := inv.settled_done g2 r2 h2
        have hij : j ≠ i := by
          intro h3
          subst h3
          rw [hj] at hc
          exact absurd hc (by simp)
        exact ⟨j, by rw [List.get?_set_ne _ _ (Ne.symm hij)]; exact hj⟩
  | settle g r hg =>
      have hlt : g < s.gens.length := sfGet_some_lt hg
      have hnl2 : ∀ g2, (s.gens.set g (some r)).get? g2 = some none → False := by
        intro g2 h2
        by_cases hgg : g2 = g
        · subst hgg
          rw [List.get?_set_eq_of_lt _ hlt] at h2
          exact absurd h2 (by simp)
        · rw [List.get?_set_ne _ _ (Ne.symm hgg)] at h2
          have h3 := inv.live_slot g2 h2
          have h4 := inv.live_slot g hg
          rw [h4] at h3
          exact hgg ((by simpa using h3 : g = g2)).symm
      refine ⟨by simpa using inv.len, ?_, ?_, ?_, ?_, ?_, ?_⟩
      · intro g2 h2
        exact Option.noConfusion h2
      · intro g2 h2
        exact (hnl2 g2 h2).elim
      · intro j g2 hj
        rw [List.get?_map] at hj
        obtain ⟨c, hcj, hdc⟩ := Option.map_eq_some'.mp hj
        exfalso
        cases c with
        | ready => simp [deliver] at hdc
        | waiting g3 =>
            by_cases hg3 : g3 = g
            · subst hg3
              simp [deliver] at hdc
            · simp [deliver, hg3] at hdc
              obtain rfl : g3 = g2 := hdc
              have h3 := inv.live_slot g3 (inv.waiting_live j g3 hcj)
              have h4 := inv.live_slot g hg
              rw [h4] at h3
              exact hg3 ((by simpa using h3 : g = g3)).symm
        | done g3 r3 => simp [deliver] at hdc
      · intro g2 h2
        exact (hnl2 g2 h2).elim
      · intro j g2 r2 hj
        rw [List.get?_map] at hj
        obtain ⟨c, hcj, hdc⟩ := Option.map_eq_some'.mp hj
        cases c with
        | ready => simp [deliver] at hdc
        | waiting g3 =>
            by_cases hg3 : g3 = g
            · subst hg3
              simp [deliver] at hdc
              obtain ⟨rfl, rfl⟩ := hdc
              rw [List.get?_set_eq_of_lt _ hlt]
            · simp [deliver, hg3] at hdc
        | done g3 r3 =>
            simp [deliver] at hdc
            obtain ⟨rfl, rfl⟩ := hdc
            have h2 := inv.done_settled j g3 r3 hcj
            have hgg : g3 ≠ g := by
              intro h3
              subst h3
              rw [h2] at hg
              exact absurd hg (by simp)
            rw [List.get?_set_ne _ _ (Ne.symm hgg)]
            exact h2
      · intro g2 r2 h2
        by_cases hgg : g2 = g
        · subst hgg
          rw [List.get?_set_eq_of_lt _ hlt] at h2
          obtain rfl : r = r2 := by simpa using h2
          obtain ⟨j, hj⟩ := inv.live_waiter g2 hg
          refine ⟨j, ?_⟩
          rw [List.get?_map, hj]
          simp [deliver]
        · rw [List.get?_set_ne _ _ (Ne.symm hgg)] at h2
          obtain ⟨j, hj⟩ := inv.settled_done g2 r2 h2
          refine ⟨j, ?_⟩
          rw [List.get?_map, hj]
          simp [deliver]

/-- Every reachable state satisfies the invariant. -/
theorem sfInv_reach {R : Type} {N : Nat} {s : SFState R}
    (h : SFReach N s) : SFInv N s := by
  induction h with
  | init => exact sfInv_init R N
  | step _ st ih => exact sfInv_step ih st

/-- Claim C1: in every state reachable from N ≥ 1 concurrent callers of
`refreshingToken` (each having hit Unauthorized): (i) at most one
refresh is live at any instant; (ii) all waiting callers await the same
refresh generation; (iii) in the same window — every caller has called
and none has been answered — exactly one network refresh has been
issued; (iv) when that refresh settles, every waiter receives the same
outcome value; and (v) after the slot is cleared, a later (still-ready)
caller's call step starts a fresh, again-live refresh. -/
theorem refreshingToken_single_flight {R : Type} {N : Nat} {s : SFState R}
    (h : SFReach N s) :
    (∀ g g2, liveGen s g → liveGen s g2 → g = g2) ∧
    (∀ i j gi gj, s.callers.get? i = some (.waiting gi) →
      s.callers.get? j = some (.waiting gj) → gi = gj) ∧
    ((∀ c ∈ s.callers, ∃ g, c = CallerSt.waiting g) → 0 < N →
      s.gens.length = 1) ∧
    (∀ g r i gi, liveGen s g → s.callers.get? i = some (.waiting gi) →
      (s.callers.map (deliver g r)).get? i = some (.done g r)) ∧
    (∀ i, s.slot = none → s.callers.get? i = some .ready →
      SFStep s { callers := s.callers.set i (.waiting s.gens.length)
                 slot := some s.gens.length
                 gens := s.gens ++ [none] } ∧
      (s.gens ++ [(none : Option R)]).get? s.gens.length = some none) := by
  have inv := sfInv_reach h
  have huniq : ∀ g g2, liveGen s g → liveGen s g2 → g = g2 := by
    intro g g2 h1 h2
    have e1 := inv.live_slot g h1
    have e2 := inv.live_slot g2 h2
    rw [e1] at e2
    simpa using e2
  refine ⟨huniq, ?_, ?_, ?_, ?_⟩
  · intro i j gi gj hi hj
    exact huniq gi gj (inv.waiting_live i gi hi) (inv.waiting_live j gj hj)
  · intro hall hN
    have hlen0 : 0 < s.callers.length := by rw [inv.len]; exact hN
    have hnone : ∀ g x, s.gens.get? g = some x → x = none := by
      intro g x hx
      cases x with
      | none => rfl
      | some r =>
          obtain ⟨j, hj⟩ := inv.settled_done g r hx
          obtain ⟨g2, hg2⟩ := hall _ (List.get?_mem hj)
          exact absurd hg2 (by simp)
    obtain ⟨c0, hc0⟩ := sfGet_lt_some hlen0
    obtain ⟨g0, rfl⟩ := hall _ (List.get?_mem hc0)
    have hlive0 : liveGen s g0 := inv.waiting_live 0 g0 hc0
    have h1le : g0 < s.gens.length := sfGet_some_lt hlive0
    by_contra hne
    have h2le : 2 ≤ s.gens.length := by omega
    obtain ⟨x0, hx0⟩ := sfGet_lt_some (show 0 < s.gens.length by omega)
    obtain ⟨x1, hx1⟩ := sfGet_lt_some (show 1 < s.gens.length by omega)
    obtain rfl : x0 = none := hnone 0 x0 hx0
    obtain rfl : x1 = none := hnone 1 x1 hx1
    exact absurd (huniq 0 1 hx0 hx1) (by simp)
  · intro g r i gi hlive hi
    obtain rfl : gi = g := huniq gi g (inv.waiting_live i gi hi) hlive
    rw [List.get?_map, hi]
    simp [deliver]
  · intro i hs hc
    exact ⟨SFStep.call s i hc hs, List.get?_concat_length _ _⟩

/-- Witness for C1: two callers, the first starting the worker, the
second joining it; in the resulting (reachable, all-waiting) state
exactly one refresh has been issued. -/
theorem refreshingToken_single_flight_witness :
    (({ callers := [CallerSt.waiting 0, CallerSt.waiting 0]
        slot := some 0
        gens := [(none : Option Bool)] } : SFState Bool)).gens.length = 1 := by
  have h0 : SFReach (R := Bool) 2 (sfInit Bool 2) := SFReach.init
  have h1 := SFReach.step h0 (SFStep.call (sfInit Bool 2) 0 rfl rfl)
  have hreach : SFReach (R := Bool) 2
      { callers := [CallerSt.waiting 0, CallerSt.waiting 0]
        slot := some 0
        gens := [(none : Option Bool)] } :=
    SFReach.step h1 (SFStep.join _ 1 0 rfl rfl)
  refine (refreshingToken_single_flight hreach).2.2.1 ?_ (by decide)
  intro c hc
  simp at hc
  exact ⟨0, hc⟩
